import Mathlib

/-!
# Verification of the jscd48 CD48 coincidence-counter library

A shallow embedding of the measurement, calibration and validation logic of the
jscd48 repository, with theorems settling the behavioural claims made by its
specification.

Embedding conventions:

* JavaScript numbers are modelled as exact rationals (`ℚ`) on code paths where
  the verified claims are algebraic identities over finite values, and as the
  four-point type `JSVal` (finite value, `Infinity`, `-Infinity`, `NaN`) on the
  calibration-fitting paths of `src/calibration.js`, where division by zero is
  reachable and its IEEE-754 outcome is the very point at issue.  Finite-value
  arithmetic is idealised as exact (no 64-bit rounding); every claim below is
  stated about exact arithmetic.
* Thrown JS exceptions become `Except` errors; an embedded function whose
  source has no `throw` on any path is given a total (non-`Except`) type.
* `Math.sqrt` is real-valued, so the one square root in the code base (the
  Poisson uncertainty of a rate measurement) is factored into its own
  real-valued function `Mock.rateUncertainty`; the remaining fields of the
  measurement record are rational and stay executable.
-/

/-! ## A model of JavaScript numbers for the calibration fitters

`VoltageCalibration.twoPoint` and `VoltageCalibration.multiPoint` in
`src/calibration.js` can divide by zero, which in JavaScript produces
`Infinity`, `-Infinity` or `NaN` rather than an error.  `JSVal` captures the
IEEE-754 special values and the arithmetic on them; finite values are exact
rationals (the rational `0` plays the role of IEEE `+0`; the code paths
verified here never produce `-0` as a divisor). -/

inductive JSVal where
  | num (q : ℚ)
  | inf
  | negInf
  | nan
deriving DecidableEq

namespace JSVal

def add : JSVal → JSVal → JSVal
  | nan, _ => nan
  | _, nan => nan
  | num a, num b => num (a + b)
  | num _, inf => inf
  | num _, negInf => negInf
  | inf, num _ => inf
  | inf, inf => inf
  | inf, negInf => nan
  | negInf, num _ => negInf
  | negInf, inf => nan
  | negInf, negInf => negInf

def neg : JSVal → JSVal
  | num a => num (-a)
  | inf => negInf
  | negInf => inf
  | nan => nan

def sub (x y : JSVal) : JSVal := add x (neg y)

/-- Multiplication of an infinity by a finite value: the sign of the finite
factor decides the sign of the result, and `0 * Infinity = NaN`. -/
def infMulNum (a : ℚ) (pos negv : JSVal) : JSVal :=
  if 0 < a then pos else if a < 0 then negv else nan

def mul : JSVal → JSVal → JSVal
  | nan, _ => nan
  | _, nan => nan
  | num a, num b => num (a * b)
  | num a, inf => infMulNum a inf negInf
  | num a, negInf => infMulNum a negInf inf
  | inf, num b => infMulNum b inf negInf
  | negInf, num b => infMulNum b negInf inf
  | inf, inf => inf
  | inf, negInf => negInf
  | negInf, inf => negInf
  | negInf, negInf => inf

def div : JSVal → JSVal → JSVal
  | nan, _ => nan
  | _, nan => nan
  | num a, num b =>
    if b = 0 then (if 0 < a then inf else if a < 0 then negInf else nan)
    else num (a / b)
  | num _, inf => num 0
  | num _, negInf => num 0
  | inf, num b => if b < 0 then negInf else inf
  | negInf, num b => if b < 0 then inf else negInf
  | inf, inf => nan
  | inf, negInf => nan
  | negInf, inf => nan
  | negInf, negInf => nan

instance : Add JSVal := ⟨JSVal.add⟩
instance : Neg JSVal := ⟨JSVal.neg⟩
instance : Sub JSVal := ⟨JSVal.sub⟩
instance : Mul JSVal := ⟨JSVal.mul⟩
instance : Div JSVal := ⟨JSVal.div⟩

end JSVal

/-! ## `src/calibration.js` — `VoltageCalibration` -/

namespace Calibration

/-- A calibration point `{raw, actual}` as consumed by `VoltageCalibration`. -/
structure CalPoint where
  raw : JSVal
  actual : JSVal
deriving DecidableEq

/-- The `{gain, offset}` coefficient pair returned by the fitters. -/
structure CalCoefficients where
  gain : JSVal
  offset : JSVal
deriving DecidableEq

/-- `VoltageCalibration.twoPoint` (src/calibration.js, lines 265-269).
The source computes the two quotient expressions directly and contains no
`throw` on any path, so the embedding is a total function. -/
def twoPoint (point1 point2 : CalPoint) : CalCoefficients :=
  let gain := (point2.actual - point1.actual) / (point2.raw - point1.raw)
  let offset := point1.actual - gain * point1.raw
  { gain := gain, offset := offset }

/-- `VoltageCalibration.apply` (src/calibration.js, lines 278-280). -/
def apply (raw gain offset : JSVal) : JSVal :=
  raw * gain + offset

/-- The one error `VoltageCalibration.multiPoint` can throw:
`Error('At least 2 calibration points required')`. -/
inductive CalibrationError where
  | insufficientPoints
deriving DecidableEq

/-- `VoltageCalibration.multiPoint` (src/calibration.js, lines 287-309).
The source accumulates `sumX`, `sumY`, `sumXY`, `sumXX` in a single
`forEach`; the embedding uses one fold per sum, which computes the same
values.  After the length guard there is no further check: the variance
denominator `n*sumXX - sumX*sumX` is divided by unconditionally. -/
def multiPoint (points : List CalPoint) : Except CalibrationError CalCoefficients :=
  if points.length < 2 then .error .insufficientPoints
  else
    let n : JSVal := .num (points.length : ℚ)
    let sumX := points.foldl (fun s p => s + p.raw) (JSVal.num 0)
    let sumY := points.foldl (fun s p => s + p.actual) (JSVal.num 0)
    let sumXY := points.foldl (fun s p => s + p.raw * p.actual) (JSVal.num 0)
    let sumXX := points.foldl (fun s p => s + p.raw * p.raw) (JSVal.num 0)
    let gain := (n * sumXY - sumX * sumY) / (n * sumXX - sumX * sumX)
    let offset := (sumY - gain * sumX) / n
    .ok { gain := gain, offset := offset }

/-- Per-channel calibration data of `CalibrationProfile`
(src/calibration.js, lines 9-159).  Each of the four JS dictionary fields is a
partial map from channel number to a stored rational; `none` models a key that
was never set (`undefined`). -/
structure CalibrationProfile where
  voltages : ℤ → Option ℚ
  thresholds : ℤ → Option ℚ
  gains : ℤ → Option ℚ
  offsets : ℤ → Option ℚ

/-- JavaScript `x || d` on a possibly-missing stored number: `undefined` and
`0` are falsy, any other (finite) number is truthy. -/
def jsOr (v : Option ℚ) (d : ℚ) : ℚ :=
  match v with
  | some x => if x = 0 then d else x
  | none => d

/-- JavaScript `x || null` on a possibly-missing stored number, as used by the
profile getters: a stored `0` comes back as `null`. -/
def jsOrNull (v : Option ℚ) : Option ℚ :=
  match v with
  | some x => if x = 0 then none else some x
  | none => none

/-- The error thrown by the profile setters:
`Error('Channel must be between 0 and 7')`. -/
inductive ProfileError where
  | invalidChannel
deriving DecidableEq

/-- `CalibrationProfile.setGain` (src/calibration.js, lines 75-80). -/
def setGain (p : CalibrationProfile) (channel : ℤ) (gain : ℚ) :
    Except ProfileError CalibrationProfile :=
  if channel < 0 ∨ channel > 7 then .error .invalidChannel
  else .ok { p with gains := fun c => if c = channel then some gain else p.gains c }

/-- `CalibrationProfile.getGain` (src/calibration.js, lines 87-89):
`return this.gains[channel] || null`. -/
def getGain (p : CalibrationProfile) (channel : ℤ) : Option ℚ :=
  jsOrNull (p.gains channel)

/-- `CalibrationProfile.applyCounts` (src/calibration.js, lines 118-122):
`const gain = this.gains[channel] || 1; const offset = this.offsets[channel] || 0;
return rawCount * gain + offset`. -/
def applyCounts (p : CalibrationProfile) (channel : ℤ) (rawCount : ℚ) : ℚ :=
  let gain := jsOr (p.gains channel) 1
  let offset := jsOr (p.offsets channel) 0
  rawCount * gain + offset

end Calibration

/-! ## `src/calibration.js` — analysis module, `Coincidence` namespace

The second half of `src/calibration.js` is the statistics/analysis module
(`@module analysis`); its `Coincidence` namespace holds the accidental-rate
correction.  These functions are pure arithmetic with no division, so they are
embedded directly over `ℚ`. -/

namespace Analysis

/-- `Coincidence.accidentalRate` (src/calibration.js, lines 943-945):
`return 2 * rate1 * rate2 * coincidenceWindow`. -/
def accidentalRate (rate1 rate2 coincidenceWindow : ℚ) : ℚ :=
  2 * rate1 * rate2 * coincidenceWindow

/-- `Coincidence.trueRate` (src/calibration.js, lines 955-958):
`return Math.max(0, measuredRate - accidental)`. -/
def trueRate (measuredRate rate1 rate2 coincidenceWindow : ℚ) : ℚ :=
  max 0 (measuredRate - accidentalRate rate1 rate2 coincidenceWindow)

end Analysis

/-! ## `src/src/validation.ts` -/

namespace Validation

def VOLTAGE_MIN : ℚ := 0
def VOLTAGE_MAX : ℚ := 4.08
def BYTE_MIN : ℚ := 0
def BYTE_MAX : ℚ := 255

/-- `ValidationError(param, value, expected)` from `src/errors.js` as thrown by
the validators in `src/src/validation.ts`. -/
inductive CD48Error where
  | validationError (param : String) (value : ℚ) (expected : String)
deriving DecidableEq

/-- `clamp` (src/src/validation.ts, lines 176-178):
`Math.max(min, Math.min(max, value))`. -/
def clamp (value min max : ℚ) : ℚ :=
  Max.max min (Min.min max value)

/-- `clampVoltage` (src/src/validation.ts, lines 185-187). -/
def clampVoltage (voltage : ℚ) : ℚ :=
  clamp voltage VOLTAGE_MIN VOLTAGE_MAX

/-- `validateByte` (src/src/validation.ts, lines 83-95).  The leading
`typeof`/`NaN` guard is outside the rational embedding; the range guard throws
`ValidationError('byte', byte, '0-255')`. -/
def validateByte (byte : ℚ) : Except CD48Error Unit :=
  if byte < BYTE_MIN ∨ byte > BYTE_MAX then
    .error (.validationError "byte" byte "0-255")
  else .ok ()

/-- `voltageToByte` (src/src/validation.ts, lines 203-206):
`Math.round((clampVoltage(voltage) / VOLTAGE_MAX) * BYTE_MAX)`.  No path
throws, so the embedding is total.  `Math.round` rounds half-up, as does
Mathlib's `round` on `ℚ`. -/
def voltageToByte (voltage : ℚ) : ℤ :=
  round (clampVoltage voltage / VOLTAGE_MAX * BYTE_MAX)

/-- `byteToVoltage` (src/src/validation.ts, lines 213-216):
`validateByte(byte); return (byte / BYTE_MAX) * VOLTAGE_MAX`. -/
def byteToVoltage (byte : ℚ) : Except CD48Error ℚ := do
  let _ ← validateByte byte
  pure (byte / BYTE_MAX * VOLTAGE_MAX)

end Validation

/-! ## `src/tests/mock-cd48.ts` — the `MockCD48` device -/

namespace Mock

/-- The observable fields of a `MockCD48` instance that the verified commands
read or write.  `counts` is the 8-entry channel counter array. -/
structure MockState where
  connected : Bool
  failCommands : Bool
  disconnectAfter : Option ℕ
  commandCount : ℕ
  counts : List ℚ
  coincidenceCounts : ℚ
deriving DecidableEq

/-- The errors thrown by `MockCD48` methods. -/
inductive MockError where
  | notConnected
  | commandFailed
  | disconnected
  | invalidChannel (channel : ℤ)
deriving DecidableEq

/-- `MockCD48._executeCommand` (src/tests/mock-cd48.ts, lines 283-303).
Returns the state with `commandCount` incremented; each `throw` becomes an
error (the source also flips `connected` to `false` before throwing
`'Device disconnected unexpectedly'`, but that state is unreachable past the
throw, so the error constructor carries it implicitly). -/
def executeCommand (s : MockState) : Except MockError MockState :=
  if ¬s.connected then .error .notConnected
  else if s.failCommands then .error .commandFailed
  else
    let s' := { s with commandCount := s.commandCount + 1 }
    match s.disconnectAfter with
    | some n => if s'.commandCount > n then .error .disconnected else .ok s'
    | none => .ok s'

/-- JavaScript `array[i] ?? 0` on a numeric array with a possibly-out-of-range
index: an in-range read returns the element, anything else yields the
`?? 0` default. -/
def jsIndex (l : List ℚ) (i : ℤ) : ℚ :=
  if h : 0 ≤ i ∧ i.toNat < l.length then l.get ⟨i.toNat, h.2⟩ else 0

/-- The rational fields of the object returned by `MockCD48.measureRate`.
The `uncertainty` field is real-valued (it is a square root) and is therefore
factored into `rateUncertainty` below; no other field depends on it. -/
structure RateMeasurement where
  channel : ℤ
  duration : ℚ
  counts : ℚ
  rate : ℚ
deriving DecidableEq

/-- The `uncertainty` field computed by `MockCD48.measureRate`
(src/tests/mock-cd48.ts, line 192):
`Math.sqrt(Math.max(0, totalCounts)) / duration`. -/
noncomputable def rateUncertainty (totalCounts duration : ℚ) : ℝ :=
  Real.sqrt (max 0 (totalCounts : ℝ)) / (duration : ℝ)

/-- `MockCD48.measureRate` (src/tests/mock-cd48.ts, lines 170-194).
The source reads `this.counts[channel]` once before and once after the
`duration` wait; the auto-increment timer may change the array in between, so
the post-wait array is the explicit parameter `countsEnd`.  After
`_executeCommand` and the channel-range guard, the method computes
`totalCounts = endCounts - startCounts` and returns it unconditionally — there
is no negative-delta branch.  The `commandCount` bump of `_executeCommand` is
dropped from the result (no claim concerns it); its error behaviour is kept
exactly. -/
def measureRate (s : MockState) (countsEnd : List ℚ) (channel : ℤ) (duration : ℚ) :
    Except MockError RateMeasurement := do
  let _ ← executeCommand s
  if channel < 0 ∨ channel > 7 then
    throw (.invalidChannel channel)
  else
    let startCounts := jsIndex s.counts channel
    let endCounts := jsIndex countsEnd channel
    let totalCounts := endCounts - startCounts
    pure { channel := channel, duration := duration, counts := totalCounts,
           rate := totalCounts / duration }

end Mock

/-! ## Response Parser and Command Driver (`cd48.js`)

`cd48.js` itself is not under `src/`; only its unit tests
(`src/tests/unit/cd48.test.js`) and the README are.  The parser and the
driver's connection guard are therefore modelled from the spec, reusing the
reply-shape facts the unit tests pin down (9 whitespace-separated tokens,
8 counts plus an overflow flag, `'Not connected to CD48'` on every command
without an open session). -/

namespace Driver

/-- Whitespace for the reply tokenizer (the unit test splits on `/\s+/`). -/
def isWhitespaceChar (c : Char) : Bool :=
  c == ' ' || c == '\t' || c == '\n' || c == '\r'

/-- Splits a character list into maximal non-whitespace runs; `acc` holds the
current run in reverse. -/
def tokenizeAux : List Char → List Char → List String
  | [], acc => if acc.isEmpty then [] else [⟨acc.reverse⟩]
  | c :: cs, acc =>
    if isWhitespaceChar c then
      if acc.isEmpty then tokenizeAux cs []
      else (⟨acc.reverse⟩ : String) :: tokenizeAux cs []
    else tokenizeAux cs (c :: acc)

/-- Modelled from the spec: the reply tokenizer of the Response Parser lives in
`cd48.js`, which is not under `src/`.  Spec §4.2: "splits on whitespace";
empty tokens are dropped, matching the unit test's
`split(/\s+/).filter((p) => p.length > 0)`. -/
def tokenize (line : String) : List String :=
  tokenizeAux line.toList []

/-- The numeric value of a decimal digit character. -/
def digitValue (c : Char) : Option ℕ :=
  if c.isDigit then some (c.toNat - '0'.toNat) else none

/-- Modelled from the spec: integer parsing of one reply token.  A non-empty
all-digit token parses to its decimal value; any other token fails. -/
def parseNatToken (token : String) : Option ℕ :=
  if token.isEmpty then none
  else
    token.toList.foldl
      (fun acc c =>
        match acc, digitValue c with
        | some n, some d => some (10 * n + d)
        | _, _ => none)
      (some 0)

/-- Parses every token of a list; one failure voids the whole list. -/
def parseTokens : List String → Option (List ℕ)
  | [] => some []
  | t :: ts =>
    match parseNatToken t, parseTokens ts with
    | some v, some vs => some (v :: vs)
    | _, _ => none

/-- A parsed count reply: 8 channel counts plus the overflow indicator
(spec §3, `CountSnapshot`). -/
structure CountSnapshot where
  counts : List ℕ
  overflow : ℕ
deriving DecidableEq

/-- The Response Parser's failure (spec §7 taxonomy). -/
inductive ParseError where
  | malformedResponse
deriving DecidableEq

/-- Modelled from the spec: `parseCounts` of the Response Parser (`cd48.js`,
not under `src/`).  Spec §4.2: "splits on whitespace; expects exactly 9 tokens
(8 channel counts + 1 overflow indicator); fails with `MalformedResponseError`
if token count or numeric parse fails.  Any token that fails integer parsing
voids the whole response (no partial snapshots)." -/
def parseCounts (line : String) : Except ParseError CountSnapshot :=
  let tokens := tokenize line
  if tokens.length = 9 then
    match parseTokens tokens with
    | some values => .ok { counts := values.take 8, overflow := values.getD 8 0 }
    | none => .error .malformedResponse
  else .error .malformedResponse

/-- The Command Driver's session state (spec §3, `DeviceSession`). -/
structure DeviceSession where
  connected : Bool
deriving DecidableEq

/-- The Command Driver's failures (spec §7 taxonomy). -/
inductive DriverError where
  | notConnectedError
  | malformedResponse
  | protocolError
deriving DecidableEq

/-- One constructor per device capability of the Command Driver (spec §4.3). -/
inductive Command where
  | getVersion
  | getCounts (humanReadable : Bool)
  | getSettings
  | getHelp
  | testLeds
  | clearCounts
  | setTriggerLevel (voltage : ℚ)
  | setDacVoltage (voltage : ℚ)
  | setImpedance50Ohm
  | setImpedanceHighZ
  | setChannel (channel : ℤ) (a b c d : Bool)
  | setRepeat (intervalMs : ℚ)
  | toggleRepeat
deriving DecidableEq

/-- The typed result of one command exchange. -/
inductive CommandResult where
  | text (s : String)
  | snapshot (snap : CountSnapshot)
  | ack
  | byteSent (b : ℤ)
deriving DecidableEq

/-- Modelled from the spec: the Command Driver (`cd48.js`, not under `src/`;
only its unit tests are).  Spec §4.3/§7: "`NotConnectedError` if any command is
attempted while `connected=false`" — every operation issues its command through
one guard on the session, which the unit tests confirm
(`'Not connected to CD48'` for `sendCommand`, `getVersion`, `getCounts`).
On an open session each command interprets the device's `reply` line per §4.2:
machine-readable counts go through `parseCounts`, `getVersion` returns the
trimmed line, the voltage commands encode `round(voltage/4.08 * 255)` (§4.3,
the driver trusts pre-clamped input), and the remaining commands acknowledge.
The settle delay and the single-in-flight queue are timing behaviour outside
this embedding. -/
def runCommand (session : DeviceSession) (cmd : Command) (reply : String) :
    Except DriverError CommandResult :=
  if session.connected then
    match cmd with
    | .getVersion => .ok (.text reply.trim)
    | .getCounts false =>
      match parseCounts reply with
      | .ok snap => .ok (.snapshot snap)
      | .error _ => .error .malformedResponse
    | .getCounts true => .ok (.text reply)
    | .getSettings => .ok (.text reply.trim)
    | .getHelp => .ok (.text reply)
    | .testLeds => .ok .ack
    | .clearCounts => .ok .ack
    | .setTriggerLevel voltage =>
      .ok (.byteSent (round (voltage / Validation.VOLTAGE_MAX * Validation.BYTE_MAX)))
    | .setDacVoltage voltage =>
      .ok (.byteSent (round (voltage / Validation.VOLTAGE_MAX * Validation.BYTE_MAX)))
    | .setImpedance50Ohm => .ok .ack
    | .setImpedanceHighZ => .ok .ack
    | .setChannel _ _ _ _ _ => .ok .ack
    | .setRepeat _ => .ok .ack
    | .toggleRepeat => .ok .ack
  else .error .notConnectedError

end Driver

/-! ## Helper lemmas -/

namespace JSVal

@[simp] theorem num_add_num (a b : ℚ) : num a + num b = num (a + b) := rfl

@[simp] theorem num_sub_num (a b : ℚ) : num a - num b = num (a - b) := by
  show add (num a) (neg (num b)) = num (a - b)
  simp only [neg, add, sub_eq_add_neg]

@[simp] theorem num_mul_num (a b : ℚ) : num a * num b = num (a * b) := rfl

theorem num_div_num (a b : ℚ) (h : b ≠ 0) : num a / num b = num (a / b) := by
  show div (num a) (num b) = num (a / b)
  simp [div, h]

theorem num_div_num_zero_pos (a : ℚ) (h : 0 < a) : num a / num 0 = inf := by
  show div (num a) (num 0) = inf
  simp [div, h]

@[simp] theorem zero_div_zero_eq_nan : num 0 / num 0 = nan := by
  show div (num 0) (num 0) = nan
  simp [div]

theorem inf_mul_num_pos (b : ℚ) (h : 0 < b) : inf * num b = inf := by
  show mul inf (num b) = inf
  simp [mul, infMulNum, h]

@[simp] theorem num_sub_inf_eq (a : ℚ) : num a - inf = negInf := rfl

@[simp] theorem num_sub_nan_eq (a : ℚ) : num a - nan = nan := rfl

@[simp] theorem nan_mul_num_eq (a : ℚ) : nan * num a = nan := rfl

@[simp] theorem nan_div_num_eq (a : ℚ) : nan / num a = nan := rfl

end JSVal

/-- Evaluation of `twoPoint` at two points with the same raw value `1`:
the gain divides by zero and comes out as `Infinity`, the offset as
`-Infinity`; no error is raised. -/
theorem twoPoint_equal_raw_eval :
    Calibration.twoPoint ⟨.num 1, .num 0⟩ ⟨.num 1, .num 1⟩ =
      { gain := JSVal.inf, offset := JSVal.negInf } := by
  unfold Calibration.twoPoint
  simp only [JSVal.num_sub_num]
  norm_num
  rw [JSVal.num_div_num_zero_pos 1 (by norm_num), JSVal.inf_mul_num_pos 1 (by norm_num)]
  exact ⟨rfl, rfl⟩

/-- Evaluation of `multiPoint` at two points that share the raw value `1`:
the variance denominator is zero, the fit divides `0 / 0`, and the result is
`{gain: NaN, offset: NaN}` — not an error. -/
theorem multiPoint_equal_raw_eval :
    Calibration.multiPoint [⟨.num 1, .num 1⟩, ⟨.num 1, .num 2⟩] =
      .ok { gain := JSVal.nan, offset := JSVal.nan } := by
  unfold Calibration.multiPoint
  simp only [List.length_cons, List.length_nil, List.foldl_cons, List.foldl_nil,
    JSVal.num_add_num, JSVal.num_mul_num, JSVal.num_sub_num]
  norm_num

/-- A token that fails integer parsing voids the whole token list. -/
theorem parseTokens_eq_none {l : List String} {t : String}
    (ht : t ∈ l) (h : Driver.parseNatToken t = none) :
    Driver.parseTokens l = none := by
  induction l with
  | nil => cases ht
  | cons a as ih =>
    rcases List.mem_cons.mp ht with rfl | hmem
    · simp [Driver.parseTokens, h]
    · rw [Driver.parseTokens]
      rw [ih hmem]
      cases Driver.parseNatToken a <;> rfl

/-- On an open, healthy session with a valid channel, `MockCD48.measureRate`
reduces to the measurement record built from the two snapshots. -/
theorem measureRate_reduces (s : Mock.MockState) (countsEnd : List ℚ)
    (channel : ℤ) (duration : ℚ)
    (hconn : s.connected = true) (hfail : s.failCommands = false)
    (hdis : s.disconnectAfter = none)
    (h0 : 0 ≤ channel) (h7 : channel ≤ 7) :
    Mock.measureRate s countsEnd channel duration =
      .ok { channel := channel, duration := duration,
            counts := Mock.jsIndex countsEnd channel - Mock.jsIndex s.counts channel,
            rate := (Mock.jsIndex countsEnd channel - Mock.jsIndex s.counts channel) / duration } := by
  have hch : ¬(channel < 0 ∨ channel > 7) := by omega
  unfold Mock.measureRate Mock.executeCommand
  rw [hconn, hfail, hdis]
  simp [hch, Bind.bind, Except.bind, Pure.pure, Except.pure]

/-! ## Claim theorems -/

/-- **C1**: For every non-negative `rateA`, `rateB`, measured coincidence rate
and coincidence window `w`, the coincidence correction computes
`accidentalRate = 2 * w * rateA * rateB` and
`trueCoincidenceRate = max 0 (coincidenceRate - accidentalRate)`; in
particular the true coincidence rate is never negative — physically
meaningless negative results are clamped. -/
theorem coincidence_correction_spec (rateA rateB coincidenceRate w : ℚ)
    (hA : 0 ≤ rateA) (hB : 0 ≤ rateB) (hC : 0 ≤ coincidenceRate) (hw : 0 ≤ w) :
    Analysis.accidentalRate rateA rateB w = 2 * w * rateA * rateB ∧
    Analysis.trueRate coincidenceRate rateA rateB w =
      max 0 (coincidenceRate - 2 * w * rateA * rateB) ∧
    0 ≤ Analysis.trueRate coincidenceRate rateA rateB w := by
  have hacc : Analysis.accidentalRate rateA rateB w = 2 * w * rateA * rateB := by
    unfold Analysis.accidentalRate; ring
  refine ⟨hacc, ?_, ?_⟩
  · unfold Analysis.trueRate
    rw [hacc]
  · exact le_max_left 0 _

/-- **C1** witness: the spec's clamping example — a measured coincidence rate
of 1 with an accidental rate of 2 yields a true coincidence rate of 0. -/
theorem coincidence_correction_witness :
    Analysis.accidentalRate 1 1 1 = 2 ∧
    Analysis.trueRate 1 1 1 1 = 0 ∧
    0 ≤ Analysis.trueRate 1 1 1 1 := by
  have h := coincidence_correction_spec 1 1 1 1 (by norm_num) (by norm_num)
    (by norm_num) (by norm_num)
  refine ⟨by rw [h.1]; norm_num, ?_, h.2.2⟩
  rw [h.2.1]
  norm_num

/-- **C5**: every command kind fails with `NotConnectedError` when the session
has `connected = false`; no command kind succeeds without an open session. -/
theorem runCommand_notConnected (cmd : Driver.Command) (reply : String) :
    Driver.runCommand ⟨false⟩ cmd reply = .error .notConnectedError := rfl

/-- **C7**: for every pair of calibration points with distinct raw values,
`twoPoint` returns `gain = (p2.actual - p1.actual) / (p2.raw - p1.raw)` and
`offset = p1.actual - gain * p1.raw`. -/
theorem twoPoint_formula (r1 a1 r2 a2 : ℚ) (h : r1 ≠ r2) :
    Calibration.twoPoint ⟨.num r1, .num a1⟩ ⟨.num r2, .num a2⟩ =
      { gain := .num ((a2 - a1) / (r2 - r1)),
        offset := .num (a1 - (a2 - a1) / (r2 - r1) * r1) } := by
  have hd : r2 - r1 ≠ 0 := sub_ne_zero.mpr (Ne.symm h)
  unfold Calibration.twoPoint
  simp [JSVal.num_div_num _ _ hd]

/-- **C7** witness: the spec's example points `{raw: 0, actual: 0}` and
`{raw: 255, actual: 4.08}` give `gain = 4.08/255 = 0.016` exactly and
`offset = 0`. -/
theorem twoPoint_formula_witness :
    (0 : ℚ) ≠ 255 ∧
    Calibration.twoPoint ⟨.num 0, .num 0⟩ ⟨.num 255, .num 4.08⟩ =
      { gain := .num 0.016, offset := .num 0 } := by
  refine ⟨by norm_num, ?_⟩
  rw [twoPoint_formula 0 0 255 4.08 (by norm_num)]
  norm_num

/-- **C3** counterexample: the claim says `twoPoint` fails with
`DegenerateCalibrationError` when `p1.raw == p2.raw` and that `multiPoint`
fails when all raw values are identical.  Neither fails: `twoPoint` has no
error path at all and at two points with equal raw value `1` it divides by
zero, returning `gain = Infinity, offset = -Infinity`; `multiPoint` on two
points with identical raw values returns `NaN` coefficients instead of an
error. -/
theorem calibration_degenerate_counterexample :
    Calibration.twoPoint ⟨.num 1, .num 0⟩ ⟨.num 1, .num 1⟩ =
      { gain := JSVal.inf, offset := JSVal.negInf } ∧
    Calibration.multiPoint [⟨.num 1, .num 1⟩, ⟨.num 1, .num 2⟩] =
      .ok { gain := JSVal.nan, offset := JSVal.nan } :=
  ⟨twoPoint_equal_raw_eval, multiPoint_equal_raw_eval⟩

/-- **C3** (amended): `multiPoint` does fail (with the error
`'At least 2 calibration points required'`) when given fewer than 2 points,
but the degenerate-input checks claimed for the fitters do not exist:
`twoPoint` with `p1.raw == p2.raw` divides by zero and returns infinite
coefficients instead of failing, and `multiPoint` with identical raw values
(zero variance denominator) returns `NaN` coefficients instead of failing. -/
theorem calibration_fitters_amended :
    (∀ points : List Calibration.CalPoint, points.length < 2 →
      Calibration.multiPoint points = .error .insufficientPoints) ∧
    Calibration.twoPoint ⟨.num 1, .num 0⟩ ⟨.num 1, .num 1⟩ =
      { gain := JSVal.inf, offset := JSVal.negInf } ∧
    Calibration.multiPoint [⟨.num 1, .num 1⟩, ⟨.num 1, .num 2⟩] =
      .ok { gain := JSVal.nan, offset := JSVal.nan } := by
  refine ⟨?_, twoPoint_equal_raw_eval, multiPoint_equal_raw_eval⟩
  intro points h
  unfold Calibration.multiPoint
  rw [if_pos h]

/-- **C3** witness: `multiPoint` rejects the empty list and a singleton. -/
theorem calibration_fitters_amended_witness :
    Calibration.multiPoint [] = .error .insufficientPoints ∧
    Calibration.multiPoint [⟨.num 1, .num 1⟩] = .error .insufficientPoints :=
  ⟨calibration_fitters_amended.1 [] (by decide),
   calibration_fitters_amended.1 [⟨.num 1, .num 1⟩] (by decide)⟩

/-- **C10**: a gain explicitly stored as `0` is falsy in JavaScript, so
`applyCounts` replaces it by the identity default `1` — it returns
`rawCount + offset`, not `offset` — and `getGain` reports it as `null`
(`none`), not `0`. -/
theorem applyCounts_zero_gain_default (p : Calibration.CalibrationProfile)
    (channel : ℤ) (rawCount : ℚ) (h0 : 0 ≤ channel) (h7 : channel ≤ 7) :
    ∃ p', Calibration.setGain p channel 0 = .ok p' ∧
      Calibration.applyCounts p' channel rawCount =
        rawCount + Calibration.jsOr (p.offsets channel) 0 ∧
      Calibration.getGain p' channel = none := by
  have hch : ¬(channel < 0 ∨ channel > 7) := by omega
  refine ⟨{ p with gains := fun c => if c = channel then some 0 else p.gains c },
    ?_, ?_, ?_⟩
  · unfold Calibration.setGain
    rw [if_neg hch]
  · simp [Calibration.applyCounts, Calibration.jsOr]
  · simp [Calibration.getGain, Calibration.jsOrNull]

/-- **C10** witness: on a profile with offset 5 stored for channel 3, setting
gain 0 on channel 3 makes `applyCounts 3 10` return `10 + 5` and `getGain 3`
return `none`. -/
theorem applyCounts_zero_gain_default_witness :
    ∃ p', Calibration.setGain
        ⟨fun _ => none, fun _ => none, fun _ => none, fun _ => some 5⟩ 3 0 = .ok p' ∧
      Calibration.applyCounts p' 3 10 = 10 + Calibration.jsOr (some 5) 0 ∧
      Calibration.getGain p' 3 = none :=
  applyCounts_zero_gain_default
    ⟨fun _ => none, fun _ => none, fun _ => none, fun _ => some 5⟩ 3 10
    (by norm_num) (by norm_num)

/-- **C2** counterexample: the claim says a negative count delta makes
`measureRate` report a `CounterAnomaly` condition and never come back as a
valid negative rate.  With the channel-0 counter at 100 in the first snapshot
and at 50 in the second (counter reset), `measureRate` returns an ordinary
successful measurement with `counts = -50` and `rate = -50` — the error type
of the method has no anomaly condition at all. -/
theorem measureRate_negative_delta_counterexample :
    Mock.measureRate ⟨true, false, none, 0, [100, 0, 0, 0, 0, 0, 0, 0], 0⟩
        [50, 0, 0, 0, 0, 0, 0, 0] 0 1 =
      .ok { channel := 0, duration := 1, counts := -50, rate := -50 } := by
  have e1 : Mock.jsIndex [50, 0, 0, 0, 0, 0, 0, 0] 0 = 50 := rfl
  have e2 : Mock.jsIndex [100, 0, 0, 0, 0, 0, 0, 0] 0 = 100 := rfl
  rw [measureRate_reduces ⟨true, false, none, 0, [100, 0, 0, 0, 0, 0, 0, 0], 0⟩
    [50, 0, 0, 0, 0, 0, 0, 0] 0 1 rfl rfl rfl (by norm_num) (by norm_num)]
  norm_num [e1, e2]

/-- **C2** (amended): `measureRate` performs no negative-delta check.  When the
second snapshot's count on the measured channel is smaller than the first, it
returns the negative delta as `counts` and the negative quotient as `rate` in
an ordinary successful measurement; only the Poisson uncertainty clamps the
delta (`sqrt(max(0, counts))/duration = 0`).  No distinct `CounterAnomaly`
condition exists or is reported. -/
theorem measureRate_negative_delta (s : Mock.MockState) (countsEnd : List ℚ)
    (channel : ℤ) (duration : ℚ)
    (hconn : s.connected = true) (hfail : s.failCommands = false)
    (hdis : s.disconnectAfter = none)
    (h0 : 0 ≤ channel) (h7 : channel ≤ 7)
    (hneg : Mock.jsIndex countsEnd channel - Mock.jsIndex s.counts channel < 0) :
    Mock.measureRate s countsEnd channel duration =
      .ok { channel := channel, duration := duration,
            counts := Mock.jsIndex countsEnd channel - Mock.jsIndex s.counts channel,
            rate := (Mock.jsIndex countsEnd channel - Mock.jsIndex s.counts channel) / duration } ∧
    Mock.rateUncertainty
        (Mock.jsIndex countsEnd channel - Mock.jsIndex s.counts channel) duration = 0 := by
  refine ⟨measureRate_reduces s countsEnd channel duration hconn hfail hdis h0 h7, ?_⟩
  unfold Mock.rateUncertainty
  have hle : ((Mock.jsIndex countsEnd channel - Mock.jsIndex s.counts channel : ℚ) : ℝ) ≤ 0 := by
    exact_mod_cast le_of_lt hneg
  rw [max_eq_left hle, Real.sqrt_zero, zero_div]

/-- **C2** witness: a concrete reset from 100 to 30 over 2 seconds comes back
as a successful measurement with negative counts and rate and uncertainty 0. -/
theorem measureRate_negative_delta_witness :
    Mock.measureRate ⟨true, false, none, 0, [100, 0, 0, 0, 0, 0, 0, 0], 0⟩
        [30, 0, 0, 0, 0, 0, 0, 0] 0 2 =
      .ok { channel := 0, duration := 2,
            counts := Mock.jsIndex [30, 0, 0, 0, 0, 0, 0, 0] 0 -
              Mock.jsIndex [100, 0, 0, 0, 0, 0, 0, 0] 0,
            rate := (Mock.jsIndex [30, 0, 0, 0, 0, 0, 0, 0] 0 -
              Mock.jsIndex [100, 0, 0, 0, 0, 0, 0, 0] 0) / 2 } ∧
    Mock.rateUncertainty (Mock.jsIndex [30, 0, 0, 0, 0, 0, 0, 0] 0 -
      Mock.jsIndex [100, 0, 0, 0, 0, 0, 0, 0] 0) 2 = 0 :=
  measureRate_negative_delta ⟨true, false, none, 0, [100, 0, 0, 0, 0, 0, 0, 0], 0⟩
    [30, 0, 0, 0, 0, 0, 0, 0] 0 2 rfl rfl rfl (by norm_num) (by norm_num)
    (by show (30 : ℚ) - 100 < 0
        norm_num)

/-- **C4**: for every channel measurement with non-negative count delta and
positive duration, `measureRate` returns `counts` equal to the difference
between the second and the first snapshot on that channel,
`rate = counts / duration` exactly, and the uncertainty field is
`sqrt(counts) / duration` exactly. -/
theorem measureRate_spec (s : Mock.MockState) (countsEnd : List ℚ)
    (channel : ℤ) (duration : ℚ)
    (hconn : s.connected = true) (hfail : s.failCommands = false)
    (hdis : s.disconnectAfter = none)
    (h0 : 0 ≤ channel) (h7 : channel ≤ 7)
    (hd : 0 < duration)
    (hcounts : 0 ≤ Mock.jsIndex countsEnd channel - Mock.jsIndex s.counts channel) :
    Mock.measureRate s countsEnd channel duration =
      .ok { channel := channel, duration := duration,
            counts := Mock.jsIndex countsEnd channel - Mock.jsIndex s.counts channel,
            rate := (Mock.jsIndex countsEnd channel - Mock.jsIndex s.counts channel) / duration } ∧
    Mock.rateUncertainty
        (Mock.jsIndex countsEnd channel - Mock.jsIndex s.counts channel) duration =
      Real.sqrt ((Mock.jsIndex countsEnd channel - Mock.jsIndex s.counts channel : ℚ) : ℝ) /
        ((duration : ℚ) : ℝ) := by
  refine ⟨measureRate_reduces s countsEnd channel duration hconn hfail hdis h0 h7, ?_⟩
  unfold Mock.rateUncertainty
  have hle : (0 : ℝ) ≤ ((Mock.jsIndex countsEnd channel - Mock.jsIndex s.counts channel : ℚ) : ℝ) := by
    exact_mod_cast hcounts
  rw [max_eq_right hle]

/-- **C4** witness: a delta of 4 counts on channel 0 over 2 seconds gives
`counts = 4`, `rate = 4/2` and uncertainty `sqrt 4 / 2`. -/
theorem measureRate_spec_witness :
    Mock.measureRate ⟨true, false, none, 0, [0, 0, 0, 0, 0, 0, 0, 0], 0⟩
        [4, 0, 0, 0, 0, 0, 0, 0] 0 2 =
      .ok { channel := 0, duration := 2,
            counts := Mock.jsIndex [4, 0, 0, 0, 0, 0, 0, 0] 0 -
              Mock.jsIndex [0, 0, 0, 0, 0, 0, 0, 0] 0,
            rate := (Mock.jsIndex [4, 0, 0, 0, 0, 0, 0, 0] 0 -
              Mock.jsIndex [0, 0, 0, 0, 0, 0, 0, 0] 0) / 2 } ∧
    Mock.rateUncertainty (Mock.jsIndex [4, 0, 0, 0, 0, 0, 0, 0] 0 -
      Mock.jsIndex [0, 0, 0, 0, 0, 0, 0, 0] 0) 2 =
      Real.sqrt ((Mock.jsIndex [4, 0, 0, 0, 0, 0, 0, 0] 0 -
        Mock.jsIndex [0, 0, 0, 0, 0, 0, 0, 0] 0 : ℚ) : ℝ) / ((2 : ℚ) : ℝ) :=
  measureRate_spec ⟨true, false, none, 0, [0, 0, 0, 0, 0, 0, 0, 0], 0⟩
    [4, 0, 0, 0, 0, 0, 0, 0] 0 2 rfl rfl rfl (by norm_num) (by norm_num) (by norm_num)
    (by show (0 : ℚ) ≤ (4 : ℚ) - 0
        norm_num)

/-- **C6**: `parseCounts` splits the reply on whitespace and, given exactly 9
integer tokens, returns the first 8 as the per-channel counts and the 9th as
the overflow flag; any reply with a token count different from 9, or with a
token that fails integer parsing, fails with `MalformedResponseError` and
produces no partial snapshot. -/
theorem parseCounts_spec :
    Driver.parseCounts "100 200 300 400 500 600 700 800 0" =
      .ok { counts := [100, 200, 300, 400, 500, 600, 700, 800], overflow := 0 } ∧
    (∀ line : String, (Driver.tokenize line).length ≠ 9 →
      Driver.parseCounts line = .error .malformedResponse) ∧
    (∀ line : String, ∀ t ∈ Driver.tokenize line, Driver.parseNatToken t = none →
      Driver.parseCounts line = .error .malformedResponse) := by
  refine ⟨rfl, ?_, ?_⟩
  · intro line h
    simp only [Driver.parseCounts]
    rw [if_neg h]
  · intro line t ht hnone
    simp only [Driver.parseCounts]
    by_cases h9 : (Driver.tokenize line).length = 9
    · rw [if_pos h9, parseTokens_eq_none ht hnone]
    · rw [if_neg h9]

/-- **C6** witness: a 2-token reply and a 9-token reply containing the
non-numeric token `"x"` both fail with `MalformedResponseError`. -/
theorem parseCounts_spec_witness :
    Driver.parseCounts "1 2" = .error .malformedResponse ∧
    Driver.parseCounts "1 2 3 4 5 6 7 8 x" = .error .malformedResponse :=
  ⟨parseCounts_spec.2.1 "1 2" (by decide),
   parseCounts_spec.2.2 "1 2 3 4 5 6 7 8 x" "x" (by decide) (by decide)⟩

/-- **C8**: for every voltage `v` in `[0, 4.08]`, the round trip
`byteToVoltage (voltageToByte v)` succeeds and differs from `v` by at most one
LSB, i.e. `4.08/255 = 0.016` volts. -/
theorem voltage_roundtrip_one_lsb (v : ℚ)
    (h0 : 0 ≤ v) (h1 : v ≤ Validation.VOLTAGE_MAX) :
    ∃ w : ℚ,
      Validation.byteToVoltage ((Validation.voltageToByte v : ℤ) : ℚ) = .ok w ∧
      |w - v| ≤ Validation.VOLTAGE_MAX / Validation.BYTE_MAX := by
  have hVpos : (0 : ℚ) < Validation.VOLTAGE_MAX := by norm_num [Validation.VOLTAGE_MAX]
  have hBpos : (0 : ℚ) < Validation.BYTE_MAX := by norm_num [Validation.BYTE_MAX]
  have hclamp : Validation.clampVoltage v = v := by
    unfold Validation.clampVoltage Validation.clamp Validation.VOLTAGE_MIN
    rw [min_eq_right h1, max_eq_right h0]
  set x : ℚ := v / Validation.VOLTAGE_MAX * Validation.BYTE_MAX with hxdef
  have hx0 : 0 ≤ x := mul_nonneg (div_nonneg h0 (le_of_lt hVpos)) (le_of_lt hBpos)
  have hx255 : x ≤ 255 := by
    have hdiv : v / Validation.VOLTAGE_MAX ≤ 1 := (div_le_one hVpos).mpr h1
    have := mul_le_mul_of_nonneg_right hdiv (le_of_lt hBpos)
    rw [one_mul] at this
    calc x ≤ Validation.BYTE_MAX := this
      _ = 255 := by norm_num [Validation.BYTE_MAX]
  have hb0 : (0 : ℤ) ≤ round x := by
    rw [round_eq]
    exact Int.le_floor.mpr (by push_cast; linarith)
  have hb255 : round x ≤ 255 := by
    rw [round_eq]
    have hlt : ⌊x + 1 / 2⌋ < (256 : ℤ) := Int.floor_lt.mpr (by push_cast; linarith)
    omega
  have hvb : Validation.voltageToByte v = round x := by
    unfold Validation.voltageToByte
    rw [hclamp]
  have hval : Validation.validateByte ((round x : ℤ) : ℚ) = .ok () := by
    unfold Validation.validateByte
    rw [if_neg]
    push_neg
    constructor
    · unfold Validation.BYTE_MIN
      exact_mod_cast hb0
    · unfold Validation.BYTE_MAX
      exact_mod_cast hb255
  refine ⟨((round x : ℤ) : ℚ) / Validation.BYTE_MAX * Validation.VOLTAGE_MAX, ?_, ?_⟩
  · rw [hvb]
    unfold Validation.byteToVoltage
    rw [hval]
    rfl
  · have hv' : v = x * Validation.VOLTAGE_MAX / Validation.BYTE_MAX := by
      rw [hxdef]
      field_simp
    have hw : ((round x : ℤ) : ℚ) / Validation.BYTE_MAX * Validation.VOLTAGE_MAX - v =
        (((round x : ℤ) : ℚ) - x) * (Validation.VOLTAGE_MAX / Validation.BYTE_MAX) := by
      rw [hv']
      field_simp
      ring
    rw [hw, abs_mul]
    have habs : |((round x : ℤ) : ℚ) - x| ≤ 1 / 2 := by
      rw [abs_sub_comm]
      exact abs_sub_round x
    have hfrac : (0 : ℚ) ≤ Validation.VOLTAGE_MAX / Validation.BYTE_MAX :=
      le_of_lt (div_pos hVpos hBpos)
    rw [abs_of_nonneg hfrac]
    calc |((round x : ℤ) : ℚ) - x| * (Validation.VOLTAGE_MAX / Validation.BYTE_MAX)
        ≤ 1 / 2 * (Validation.VOLTAGE_MAX / Validation.BYTE_MAX) :=
          mul_le_mul_of_nonneg_right habs hfrac
      _ ≤ Validation.VOLTAGE_MAX / Validation.BYTE_MAX := by
          norm_num [Validation.VOLTAGE_MAX, Validation.BYTE_MAX]

/-- **C8** witness: the round trip at `v = 2.04` volts stays within one LSB. -/
theorem voltage_roundtrip_one_lsb_witness :
    (0 : ℚ) ≤ 2.04 ∧ (2.04 : ℚ) ≤ Validation.VOLTAGE_MAX ∧
    ∃ w : ℚ,
      Validation.byteToVoltage ((Validation.voltageToByte 2.04 : ℤ) : ℚ) = .ok w ∧
      |w - 2.04| ≤ Validation.VOLTAGE_MAX / Validation.BYTE_MAX :=
  ⟨by norm_num, by norm_num [Validation.VOLTAGE_MAX],
   voltage_roundtrip_one_lsb 2.04 (by norm_num) (by norm_num [Validation.VOLTAGE_MAX])⟩

/-- **C9**: `voltageToByte` never throws — it clamps any (finite) numeric
input into `[0, 4.08]` and converts via `round(v/4.08 * 255)`, so voltages
below range map to byte `0` and voltages above range map to byte `255` —
while `byteToVoltage`, by contrast, fails with `ValidationError` for any byte
outside `0–255` and returns `(byte/255) * 4.08` otherwise.  (That
`voltageToByte` cannot fail is expressed by its total type `ℚ → ℤ`.) -/
theorem voltage_byte_conversion_spec (v b : ℚ) :
    (v ≤ 0 → Validation.voltageToByte v = 0) ∧
    (Validation.VOLTAGE_MAX ≤ v → Validation.voltageToByte v = 255) ∧
    (0 ≤ v → v ≤ Validation.VOLTAGE_MAX →
      Validation.voltageToByte v =
        round (v / Validation.VOLTAGE_MAX * Validation.BYTE_MAX)) ∧
    (Validation.BYTE_MIN ≤ b → b ≤ Validation.BYTE_MAX →
      Validation.byteToVoltage b =
        .ok (b / Validation.BYTE_MAX * Validation.VOLTAGE_MAX)) ∧
    ((b < Validation.BYTE_MIN ∨ Validation.BYTE_MAX < b) →
      Validation.byteToVoltage b = .error (.validationError "byte" b "0-255")) := by
  refine ⟨?_, ?_, ?_, ?_, ?_⟩
  · intro h
    unfold Validation.voltageToByte Validation.clampVoltage Validation.clamp
      Validation.VOLTAGE_MIN
    rw [min_eq_right (h.trans (by norm_num [Validation.VOLTAGE_MAX])), max_eq_left h]
    norm_num
  · intro h
    unfold Validation.voltageToByte Validation.clampVoltage Validation.clamp
      Validation.VOLTAGE_MIN
    rw [min_eq_left h,
      max_eq_right (by norm_num [Validation.VOLTAGE_MAX] : (0 : ℚ) ≤ Validation.VOLTAGE_MAX)]
    rw [div_self (by norm_num [Validation.VOLTAGE_MAX] : Validation.VOLTAGE_MAX ≠ 0), one_mul]
    norm_num [Validation.BYTE_MAX, round_eq]
  · intro h0 h1
    unfold Validation.voltageToByte Validation.clampVoltage Validation.clamp
      Validation.VOLTAGE_MIN
    rw [min_eq_right h1, max_eq_right h0]
  · intro hlo hhi
    have hval : Validation.validateByte b = .ok () := by
      unfold Validation.validateByte
      rw [if_neg]
      push_neg
      exact ⟨hlo, hhi⟩
    unfold Validation.byteToVoltage
    rw [hval]
    rfl
  · intro h
    have hval : Validation.validateByte b = .error (.validationError "byte" b "0-255") := by
      unfold Validation.validateByte
      rw [if_pos h]
    unfold Validation.byteToVoltage
    rw [hval]
    rfl

/-- **C9** witness: `voltageToByte` maps the out-of-range voltages `-1` and
`5` to bytes `0` and `255` without failing and converts `2.04` by rounding;
`byteToVoltage` succeeds on byte `128` and fails with `ValidationError` on
byte `300`. -/
theorem voltage_byte_conversion_witness :
    Validation.voltageToByte (-1) = 0 ∧
    Validation.voltageToByte 5 = 255 ∧
    Validation.voltageToByte 2.04 =
      round ((2.04 : ℚ) / Validation.VOLTAGE_MAX * Validation.BYTE_MAX) ∧
    Validation.byteToVoltage 128 =
      .ok ((128 : ℚ) / Validation.BYTE_MAX * Validation.VOLTAGE_MAX) ∧
    Validation.byteToVoltage 300 = .error (.validationError "byte" 300 "0-255") :=
  ⟨(voltage_byte_conversion_spec (-1) 0).1 (by norm_num),
   (voltage_byte_conversion_spec 5 0).2.1 (by norm_num [Validation.VOLTAGE_MAX]),
   (voltage_byte_conversion_spec 2.04 0).2.2.1 (by norm_num)
     (by norm_num [Validation.VOLTAGE_MAX]),
   (voltage_byte_conversion_spec 0 128).2.2.2.1 (by norm_num [Validation.BYTE_MIN])
     (by norm_num [Validation.BYTE_MAX]),
   (voltage_byte_conversion_spec 0 300).2.2.2.2
     (Or.inr (by norm_num [Validation.BYTE_MAX]))⟩

/-- **C5** witness: three representative command kinds issued on a closed
session all fail with `NotConnectedError`. -/
theorem runCommand_notConnected_witness :
    Driver.runCommand ⟨false⟩ .getVersion "CD48 v1.0" = .error .notConnectedError ∧
    Driver.runCommand ⟨false⟩ (.getCounts false)
      "100 200 300 400 500 600 700 800 0" = .error .notConnectedError ∧
    Driver.runCommand ⟨false⟩ (.setTriggerLevel 1) "" = .error .notConnectedError :=
  ⟨runCommand_notConnected .getVersion "CD48 v1.0",
   runCommand_notConnected (.getCounts false) "100 200 300 400 500 600 700 800 0",
   runCommand_notConnected (.setTriggerLevel 1) ""⟩
